import Mathlib

/-!
Verification development for `report_generator.py`: a batch job that fetches
JSON from three HTTP APIs, writes a three-sheet spreadsheet report, and emails
it together with an error log.  The Python program is shallowly embedded here:
external effects (HTTP responses, the SMTP session, the file system, the clock)
become explicit parameters, the error log becomes an explicit list of entries
threaded through the functions, and every Python function that the claims
mention is translated into a Lean definition of the same name.
-/

namespace ReportGenerator

/-- JSON values, as produced by `res.json()` in the Python source. -/
inductive Json where
  | null
  | bool (b : Bool)
  | num (n : Int)
  | str (s : String)
  | arr (elems : List Json)
  | obj (fields : List (String × Json))
deriving Repr

/-- A record as the spec uses the word: a key-value mapping (a Python dict
holding JSON values), possibly missing expected keys. -/
abbrev Record := List (String × Json)

/-- One entry of the error log: the context string and the stringified
exception, as written by `log_error(context, exc)` (line 26-28).  The
timestamp added by the logging format string is presentational and carries
no information used anywhere in the program. -/
structure ErrorEntry where
  context : String
  message : String
deriving Repr, DecidableEq

/-- `log_error` (line 26-28): renders one error-log entry from a context
string and an exception message. -/
def log_error (context : String) (exc : String) : ErrorEntry :=
  { context := context, message := exc }

/-- The outcome of the HTTP GET plus `res.raise_for_status()` plus
`res.json()` sequence in `fetch_api_data`: either some exception was raised
(non-2xx status, transport error, timeout, or JSON parse failure — all are
`Exception`s caught by the same handler) or a JSON value was parsed. -/
inductive FetchOutcome where
  | failure (err : String)
  | success (data : Json)

/-- The body of the `try` block of `fetch_api_data` (lines 36-43): raise on
failure, otherwise parse and wrap a dict into a one-element list. -/
def fetch_body (outcome : FetchOutcome) : Except String Json :=
  match outcome with
  | .failure e => .error e
  | .success data =>
    match data with
    | .obj fields => .ok (.arr [.obj fields])
    | d => .ok d

/-- `fetch_api_data` (lines 33-47): run the request; on any exception append
one error-log entry with context `API call failed for {url}` and return the
empty list.  The returned value is the Python return value (a list on the
happy dict/list paths, but the raw JSON value when it is neither). -/
def fetch_api_data (url : String) (outcome : FetchOutcome)
    (log : List ErrorEntry) : Json × List ErrorEntry :=
  match fetch_body outcome with
  | .ok v => (v, log)
  | .error e => (.arr [], log ++ [log_error ("API call failed for " ++ url) e])

/-- Whether a Python value is a list of dicts, i.e. a sequence of Records in
the spec's sense. -/
def isRecordSeq : Json → Bool
  | .arr elems => elems.all fun | .obj _ => true | _ => false
  | _ => false

end ReportGenerator

namespace ReportGenerator

/-- `item.get(key)` on a dict: the value for the key, or `None` when absent. -/
def dictGet (item : Record) (key : String) : Option Json :=
  (item.find? (fun p => p.1 == key)).map Prod.snd

/-- `write_sheet_from_json` (lines 76-93): the grid of cell values appended to
the worksheet — the header row (the mapping's display headers, appended as
strings) followed by one row per record, each cell `item.get(key)`.
`style_header` and `autosize_columns` only change fonts, fills and column
widths, never cell values, so the grid is the sheet's content. -/
def write_sheet_from_json (data : List Record)
    (field_mapping : List (String × String)) : List (List (Option Json)) :=
  let headers := field_mapping.map (fun p => some (Json.str p.1))
  headers :: data.map (fun item => field_mapping.map (fun p => dictGet item p.2))

/-- A worksheet: its tab title and its grid of cells. -/
structure Worksheet where
  title : String
  grid : List (List (Option Json))
deriving Repr

/-- The fixed Users mapping of `create_report_excel` (lines 103-108). -/
def user_mapping : List (String × String) :=
  [("ID", "id"), ("Name", "name"), ("Username", "username"), ("Email", "email")]

/-- The fixed Posts mapping of `create_report_excel` (lines 113-117). -/
def post_mapping : List (String × String) :=
  [("ID", "id"), ("User ID", "userId"), ("Title", "title")]

/-- The fixed Todos mapping of `create_report_excel` (lines 122-127). -/
def todo_mapping : List (String × String) :=
  [("ID", "id"), ("User ID", "userId"), ("Title", "title"), ("Completed", "completed")]

/-- A workbook: the ordered worksheets, as saved to the file path. -/
structure Workbook where
  sheets : List Worksheet
deriving Repr

/-- `create_report_excel` (lines 96-131): build the three fixed worksheets in
order, save the workbook to `file_path`, and return the path. -/
def create_report_excel (users posts todos : List Record)
    (file_path : String := "daily_report.xlsx") : Workbook × String :=
  let ws_users : Worksheet := ⟨"Users", write_sheet_from_json users user_mapping⟩
  let ws_posts : Worksheet := ⟨"Posts", write_sheet_from_json posts post_mapping⟩
  let ws_todos : Worksheet := ⟨"Todos", write_sheet_from_json todos todo_mapping⟩
  (⟨[ws_users, ws_posts, ws_todos]⟩, file_path)

/-- `os.path.basename`: the part of the path after the last slash. -/
def basename (p : String) : String :=
  (p.splitOn "/").getLastD ""

/-- The outcome of the SMTP session in `send_email_with_attachments`
(lines 169-173): connect, STARTTLS, login, send, quit either all succeed or
some step raises an exception. -/
inductive SmtpOutcome where
  | ok
  | failure (err : String)

/-- The multipart message built by `send_email_with_attachments`:
headers, plain-text body, and the attached file parts, each recorded as the
source path together with the filename placed in its Content-Disposition
header (the path's basename). -/
structure EmailMsg where
  fromAddr : Option String
  toAddr : Option String
  subject : String
  body : String
  parts : List (String × String)
deriving Repr

/-- `send_email_with_attachments` (lines 136-177): build the message,
attaching each listed file that exists (a missing path is skipped by the
`continue`), then try the SMTP session; on any exception append one
error-log entry with context `Email sending failed` and return normally.
The first component is the sent message, or `none` when sending failed. -/
def send_email_with_attachments (fileExists : String → Bool)
    (smtp : SmtpOutcome) (smtp_host : Option String) (smtp_port : Int)
    (smtp_user : Option String) (smtp_pass : Option String)
    (to_email : Option String) (subject : String) (body : String)
    (attachments : List String) (log : List ErrorEntry) :
    Option EmailMsg × List ErrorEntry :=
  let parts := (attachments.filter fileExists).map (fun p => (p, basename p))
  let msg : EmailMsg :=
    { fromAddr := smtp_user, toAddr := to_email, subject := subject
      body := body, parts := parts }
  match smtp with
  | .ok => (some msg, log)
  | .failure e => (none, log ++ [log_error "Email sending failed" e])

end ReportGenerator

namespace ReportGenerator

/-! ## The main flow (lines 181-252) -/

/-- `LOG_FILE` (line 17). -/
def LOG_FILE : String := "error.log"

/-- The warning line appended to the email body when the error log is
non-empty (line 224). -/
def warningLine : String :=
  "⚠ Some errors were logged during execution. Please check attached system logs on the server / CI artifacts."

/-- Accumulate the value of a decimal digit string; `none` on the first
non-digit character. -/
def digitsVal (l : List Char) (acc : Nat) : Option Nat :=
  match l with
  | [] => some acc
  | c :: cs =>
      if c.isDigit then digitsVal cs (acc * 10 + (c.toNat - '0'.toNat))
      else none

/-- Python `int(s)` for a decimal string: strips surrounding whitespace and
accepts an optional sign followed by one or more digits; anything else
raises `ValueError`.  (Digit-group underscores, accepted by Python, are not
modelled; no claim depends on them.) -/
def py_int (s : String) : Option Int :=
  match ((s.data.dropWhile Char.isWhitespace).reverse.dropWhile
      Char.isWhitespace).reverse with
  | [] => none
  | '+' :: rest =>
      match rest with
      | [] => none
      | _ => (digitsVal rest 0).map Int.ofNat
  | '-' :: rest =>
      match rest with
      | [] => none
      | _ => (digitsVal rest 0).map (fun n => -(Int.ofNat n))
  | l => (digitsVal l 0).map Int.ofNat

/-- The `ValueError` message raised by `int` on a bad literal. -/
def py_int_error (s : String) : String :=
  "ValueError: invalid literal for int() with base 10: " ++ s

/-- The environment variables read at lines 185-197; `none` means unset. -/
structure Env where
  smtpHost : Option String
  smtpPort : Option String
  smtpUser : Option String
  smtpPass : Option String
  toEmail : Option String
  api1Url : Option String
  api2Url : Option String
  api3Url : Option String
  apiKey : Option String

/-- Everything outside the process that the run observes: the outcome of a
GET per URL, the outcome of the SMTP session, which files exist at send
time, the size of `error.log` left over from previous runs (the logging
setup at line 19 opens it in append mode and creates it if absent, so the
file always exists but may start non-empty), and the clock. -/
structure World where
  fetchOutcome : String → FetchOutcome
  smtpOutcome : SmtpOutcome
  fileExists : String → Bool
  initialLogSize : Nat
  now : String

/-- The request headers built at lines 198-200: `os.getenv` yields `None`
when `API_KEY` is unset, and `if API_KEY:` is false both for `None` and for
the empty string. -/
def make_headers (apiKey : Option String) : List (String × String) :=
  match apiKey with
  | some k => if k = "" then [] else [("Authorization", "Bearer " ++ k)]
  | none => []

/-- Iterating a fetch result as `create_report_excel` does
(`for item in data` with `item.get(key)` per item, lines 87-90): a list of
dicts yields its records; a list with a non-dict element raises
`AttributeError` at that element; a non-empty string iterates over its
characters and raises `AttributeError` on the first; an empty string or
empty dict iterates zero times; `None`, booleans and numbers are not
iterable and raise `TypeError`. -/
def iter_records : Json → Except String (List Record)
  | .arr elems =>
      elems.mapM fun
        | .obj fields => .ok fields
        | _ => .error "AttributeError: object has no attribute get"
  | .str s =>
      if s = "" then .ok []
      else .error "AttributeError: str object has no attribute get"
  | .obj [] => .ok []
  | .obj (_ :: _) => .error "AttributeError: str object has no attribute get"
  | _ => .error "TypeError: object is not iterable"

/-- The size in bytes of `error.log` after appending `entries` to a file of
size `initial`: each entry is written as one line holding at least its
context, its message, and a separator, so each contributes a positive
amount.  (The exact timestamp length is irrelevant: the program only ever
compares the size with zero.) -/
def log_size (initial : Nat) (entries : List ErrorEntry) : Nat :=
  initial + (entries.map (fun e => e.context.length + e.message.length + 2)).sum

/-- What a completed run produced. -/
structure RunResult where
  requests : List (String × List (String × String))
  workbook : Workbook
  reportPath : String
  bodyLines : List String
  attachments : List String
  sent : Option EmailMsg
  log : List ErrorEntry
deriving Repr

/-- The first API URL (line 192, with its hardcoded default). -/
def api1_url (env : Env) : String :=
  env.api1Url.getD "https://jsonplaceholder.typicode.com/users"

/-- The second API URL (line 193, with its hardcoded default). -/
def api2_url (env : Env) : String :=
  env.api2Url.getD "https://jsonplaceholder.typicode.com/posts"

/-- The third API URL (line 194, with its hardcoded default). -/
def api3_url (env : Env) : String :=
  env.api3Url.getD "https://jsonplaceholder.typicode.com/todos"

/-- The three sequential fetches of Step 1 (lines 203-205): the three raw
fetch results together with the error-log entries appended so far. -/
def fetch_phase (env : Env) (w : World) :
    (Json × Json × Json) × List ErrorEntry :=
  let u := fetch_api_data (api1_url env) (w.fetchOutcome (api1_url env)) []
  let p := fetch_api_data (api2_url env) (w.fetchOutcome (api2_url env)) u.2
  let t := fetch_api_data (api3_url env) (w.fetchOutcome (api3_url env)) p.2
  ((u.1, p.1, t.1), t.2)

/-- The condition evaluated at lines 222 and 238:
`os.path.exists(LOG_FILE) and os.path.getsize(LOG_FILE) > 0` at send time
(after the three fetches, before the email attempt). -/
def log_cond_at_send (env : Env) (w : World) : Bool :=
  w.fileExists LOG_FILE &&
    decide (0 < log_size w.initialLogSize (fetch_phase env w).2)

/-- Steps 2-4 (lines 208-250) once the three fetch results iterate cleanly
as records: build the workbook, compose the body, pick the attachments, and
attempt to send. -/
def finish (env : Env) (w : World) (port : Int)
    (userRecs postRecs todoRecs : List Record) : RunResult :=
  let headers := make_headers env.apiKey
  let built := create_report_excel userRecs postRecs todoRecs
  let report_file := built.2
  let countLines :=
    ["Hello,", "", "Here is your automated multi-API report.", "",
     "Users records: " ++ toString userRecs.length,
     "Posts records: " ++ toString postRecs.length,
     "Todos records: " ++ toString todoRecs.length]
  let withWarning :=
    if log_cond_at_send env w then countLines ++ ["", warningLine]
    else countLines
  let body_lines :=
    withWarning ++
      ["", "Generated at: " ++ w.now ++ " UTC", "", "-- Automation Bot"]
  let email_body := String.intercalate "\n" body_lines
  let attachments :=
    if log_cond_at_send env w then [report_file, LOG_FILE] else [report_file]
  let sendRes :=
    send_email_with_attachments w.fileExists w.smtpOutcome env.smtpHost
      port env.smtpUser env.smtpPass env.toEmail "Daily Multi-API Report"
      email_body attachments (fetch_phase env w).2
  { requests := [(api1_url env, headers), (api2_url env, headers),
                 (api3_url env, headers)]
    workbook := built.1
    reportPath := report_file
    bodyLines := body_lines
    attachments := attachments
    sent := sendRes.1
    log := sendRes.2 }

/-- Lines 203-250 after the port has parsed: iterating a fetch result that
is not a list of dicts raises (users first, then posts, then todos, matching
the sheet order inside `create_report_excel`); otherwise the run completes. -/
def run_after_port (env : Env) (w : World) (port : Int) :
    Except String RunResult :=
  match iter_records (fetch_phase env w).1.1,
        iter_records (fetch_phase env w).1.2.1,
        iter_records (fetch_phase env w).1.2.2 with
  | .error e, _, _ => .error e
  | .ok _, .error e, _ => .error e
  | .ok _, .ok _, .error e => .error e
  | .ok userRecs, .ok postRecs, .ok todoRecs =>
      .ok (finish env w port userRecs postRecs todoRecs)

/-- The `__main__` block (lines 181-252).  `Except.error` means an uncaught
exception aborted the run (a non-zero process exit); `Except.ok` means the
run printed "Job finished." and exited 0.  The only statements outside any
`try` that can raise are `int(os.getenv("SMTP_PORT", "587"))` at line 186
and the record iteration inside `create_report_excel` at line 209. -/
def main_run (env : Env) (w : World) : Except String RunResult :=
  match py_int (env.smtpPort.getD "587") with
  | none => .error (py_int_error (env.smtpPort.getD "587"))
  | some port => run_after_port env w port

/-- A fetch outcome whose result iterates cleanly as records inside
`create_report_excel`: any failure (the fetch then returns `[]`), a JSON
object (wrapped into a one-element list), or a JSON array all of whose
elements are objects. -/
def safe_outcome : FetchOutcome → Bool
  | .failure _ => true
  | .success (.obj _) => true
  | .success (.arr elems) => elems.all fun | .obj _ => true | _ => false
  | .success _ => false

/-- A concrete environment with every variable unset (all defaults). -/
def demo_env : Env :=
  { smtpHost := none, smtpPort := none, smtpUser := none, smtpPass := none,
    toEmail := none, api1Url := none, api2Url := none, api3Url := none,
    apiKey := none }

/-- `demo_env` with `SMTP_PORT` set to a non-numeric string. -/
def demo_env_badport : Env := { demo_env with smtpPort := some "nope" }

/-- `demo_env` with `API_KEY` set to the empty string. -/
def demo_env_emptykey : Env := { demo_env with apiKey := some "" }

/-- A concrete world where every API is down, the SMTP session succeeds,
every file exists, and the previous error log was empty. -/
def demo_world (now : String) : World :=
  { fetchOutcome := fun _ => .failure "ConnectionError",
    smtpOutcome := .ok,
    fileExists := fun _ => true, initialLogSize := 0, now := now }

/-- `demo_world` but with a failing SMTP session. -/
def demo_world_smtpfail : World :=
  { demo_world "2026-01-02T00:00:00" with
    smtpOutcome := .failure "SMTPAuthenticationError" }

/-- The result of a completed run in `demo_world`: the port defaulted to
587 and all three fetches failed, so all record lists are empty. -/
def demo_result (now : String) : RunResult :=
  finish demo_env (demo_world now) 587 [] [] []

/-- The completed run for `demo_env_emptykey`. -/
def demo_result_emptykey : RunResult :=
  finish demo_env_emptykey (demo_world "2026-01-01T00:00:00") 587 [] [] []

/-- The completed run for `demo_world_smtpfail`. -/
def demo_result_smtpfail : RunResult :=
  finish demo_env demo_world_smtpfail 587 [] [] []

end ReportGenerator

namespace ReportGenerator

/-! ## Theorems -/

/-- A dict lookup on a record whose keys all differ from the requested key
yields `None` (an empty cell). -/
theorem dictGet_eq_none (item : Record) (key : String)
    (h : ∀ p ∈ item, p.1 ≠ key) : dictGet item key = none := by
  unfold dictGet
  rw [List.find?_eq_none.mpr]
  · rfl
  · intro p hp
    simpa using h p hp

/-- C1: every failing fetch (non-2xx status, transport error, timeout, or
JSON parse failure) returns the empty list and appends exactly one error-log
entry with context `API call failed for {url}`; the exception is swallowed,
not propagated. -/
theorem fetch_failure_empty_and_logged (url e : String) (log : List ErrorEntry) :
    (fetch_api_data url (.failure e) log).1 = Json.arr [] ∧
    (fetch_api_data url (.failure e) log).2 =
      log ++ [{ context := "API call failed for " ++ url, message := e }] := by
  exact ⟨rfl, rfl⟩

/-- C2 counterexample: a successful fetch of the JSON number `42` (a 2xx
response whose body parses as a scalar) is returned as-is, not as a sequence
of Records, contradicting the claim that every successful fetch returns a
sequence of Records. -/
theorem fetch_scalar_not_record_seq :
    (fetch_api_data "https://api.example.com/users"
        (.success (Json.num 42)) []).1 = Json.num 42 ∧
    isRecordSeq (fetch_api_data "https://api.example.com/users"
        (.success (Json.num 42)) []).1 = false := by
  exact ⟨rfl, rfl⟩

/-- C2 amended: a successful fetch of a JSON object is normalized into a
one-element sequence containing that object (which is a sequence of
Records); a JSON array is returned unchanged; any other JSON value (null,
boolean, number, string) is returned as-is and is not a sequence. -/
theorem fetch_success_shapes (url : String) (log : List ErrorEntry)
    (fields : List (String × Json)) (elems : List Json)
    (b : Bool) (n : Int) (s : String) :
    fetch_api_data url (.success (.obj fields)) log = (Json.arr [Json.obj fields], log) ∧
    isRecordSeq (fetch_api_data url (.success (.obj fields)) log).1 = true ∧
    fetch_api_data url (.success (.arr elems)) log = (Json.arr elems, log) ∧
    fetch_api_data url (.success .null) log = (Json.null, log) ∧
    fetch_api_data url (.success (.bool b)) log = (Json.bool b, log) ∧
    fetch_api_data url (.success (.num n)) log = (Json.num n, log) ∧
    fetch_api_data url (.success (.str s)) log = (Json.str s, log) := by
  refine ⟨rfl, ?_, rfl, rfl, rfl, rfl, rfl⟩
  simp [fetch_api_data, fetch_body, isRecordSeq]

/-- C3: the worksheet grid written by `write_sheet_from_json` has the
mapping's display headers as its first row (same length and order as the
mapping), exactly one data row per record in input order, each cell being
the record's value for the mapped source key, with an absent key yielding an
empty cell and no error. -/
theorem sheet_rows_match_records (data : List Record)
    (mapping : List (String × String)) :
    (write_sheet_from_json data mapping).length = data.length + 1 ∧
    (∀ h0 : 0 < (write_sheet_from_json data mapping).length,
      (write_sheet_from_json data mapping).get ⟨0, h0⟩ =
        mapping.map (fun p => some (Json.str p.1))) ∧
    (∀ (i : Nat) (hi : i < data.length),
      ∃ hr : i + 1 < (write_sheet_from_json data mapping).length,
        ((write_sheet_from_json data mapping).get ⟨i + 1, hr⟩).length =
            mapping.length ∧
        ∀ (j : Nat) (hj : j < mapping.length),
          ∃ hc : j < ((write_sheet_from_json data mapping).get ⟨i + 1, hr⟩).length,
            ((write_sheet_from_json data mapping).get ⟨i + 1, hr⟩).get ⟨j, hc⟩ =
              dictGet (data.get ⟨i, hi⟩) (mapping.get ⟨j, hj⟩).2) ∧
    (∀ (item : Record) (key : String),
      (∀ p ∈ item, p.1 ≠ key) → dictGet item key = none) := by
  refine ⟨by simp [write_sheet_from_json], fun h0 => rfl, ?_, dictGet_eq_none⟩
  intro i hi
  have hr : i + 1 < (write_sheet_from_json data mapping).length := by
    simp [write_sheet_from_json]
    omega
  have hrow : (write_sheet_from_json data mapping).get ⟨i + 1, hr⟩ =
      mapping.map (fun p => dictGet (data.get ⟨i, hi⟩) p.2) := by
    show (data.map fun item => mapping.map fun p => dictGet item p.2).get _ = _
    rw [List.get_map]
  refine ⟨hr, ?_, ?_⟩
  · rw [hrow, List.length_map]
  · intro j hj
    have hc : j < ((write_sheet_from_json data mapping).get ⟨i + 1, hr⟩).length := by
      rw [hrow, List.length_map]
      exact hj
    refine ⟨hc, ?_⟩
    have := List.get_of_eq hrow ⟨j, hc⟩
    rw [this, List.get_map]

/-- C3 witness: concrete instance — one record `{"id": 7}` under the Posts
mapping: looking up the absent key `name` yields an empty cell, the grid
has a data row at index 1, and the present key `id` yields its value. -/
theorem sheet_rows_match_records_witness :
    dictGet [("id", Json.num 7)] "name" = none ∧
    0 + 1 < (write_sheet_from_json [[("id", Json.num 7)]] post_mapping).length ∧
    dictGet [("id", Json.num 7)] "id" = some (Json.num 7) := by
  have h := sheet_rows_match_records [[("id", Json.num 7)]] post_mapping
  refine ⟨h.2.2.2 _ "name" (by decide), (h.2.2.1 0 (by decide)).1, rfl⟩

/-- C4: for every input (empty collections included) the workbook has
exactly three worksheets, in the order Users, Posts, Todos, each with the
fixed header row of its mapping, one data row per record, and the function
returns the file path it was given. -/
theorem report_has_three_fixed_sheets (users posts todos : List Record)
    (path : String) :
    (create_report_excel users posts todos path).2 = path ∧
    (create_report_excel users posts todos path).1.sheets.length = 3 ∧
    (create_report_excel users posts todos path).1.sheets.map Worksheet.title =
      ["Users", "Posts", "Todos"] ∧
    (create_report_excel users posts todos path).1.sheets.map
        (fun s => s.grid.head?) =
      [some [some (Json.str "ID"), some (Json.str "Name"),
             some (Json.str "Username"), some (Json.str "Email")],
       some [some (Json.str "ID"), some (Json.str "User ID"),
             some (Json.str "Title")],
       some [some (Json.str "ID"), some (Json.str "User ID"),
             some (Json.str "Title"), some (Json.str "Completed")]] ∧
    (create_report_excel users posts todos path).1.sheets.map
        (fun s => s.grid) =
      [write_sheet_from_json users user_mapping,
       write_sheet_from_json posts post_mapping,
       write_sheet_from_json todos todo_mapping] ∧
    (create_report_excel users posts todos path).1.sheets.map
        (fun s => s.grid.length) =
      [users.length + 1, posts.length + 1, todos.length + 1] := by
  refine ⟨rfl, rfl, rfl, ?_, rfl, ?_⟩
  · simp [create_report_excel, write_sheet_from_json, user_mapping,
      post_mapping, todo_mapping]
  · simp [create_report_excel, write_sheet_from_json]

/-- Inversion for a completed run: the port parsed, each fetch result
iterated cleanly as records, and the result is `finish` applied to them. -/
theorem main_run_ok_inv (env : Env) (w : World) (r : RunResult)
    (h : main_run env w = .ok r) :
    ∃ port userRecs postRecs todoRecs,
      py_int (env.smtpPort.getD "587") = some port ∧
      iter_records (fetch_phase env w).1.1 = .ok userRecs ∧
      iter_records (fetch_phase env w).1.2.1 = .ok postRecs ∧
      iter_records (fetch_phase env w).1.2.2 = .ok todoRecs ∧
      r = finish env w port userRecs postRecs todoRecs := by
  unfold main_run at h
  split at h
  · cases h
  · rename_i port hp
    unfold run_after_port at h
    split at h
    · cases h
    · cases h
    · cases h
    · rename_i userRecs postRecs todoRecs hu hpp ht
      injection h with h
      exact ⟨port, userRecs, postRecs, todoRecs, hp, hu, hpp, ht, h.symm⟩

/-- A string starting with a character other than `'⚠'` is not the warning
line (whose first character is `'⚠'`). -/
theorem append_ne_warningLine (p s : String) (c : Char)
    (hp : p.data.head? = some c) (hc : c ≠ '⚠') : p ++ s ≠ warningLine := by
  intro h
  have hd := congrArg String.data h
  rw [String.data_append] at hd
  have h1 : (p.data ++ s.data).head? = some c := by
    rw [List.head?_append_of_ne_nil]
    · exact hp
    · intro hnil
      rw [hnil] at hp
      simp at hp
  rw [hd] at h1
  have h2 : warningLine.data.head? = some '⚠' := by decide
  rw [h1] at h2
  exact hc (by simpa using h2)

/-- The warning line is in the body of a finished run exactly when the
log condition held. -/
theorem finish_warning_mem_iff (env : Env) (w : World) (port : Int)
    (userRecs postRecs todoRecs : List Record) :
    (warningLine ∈ (finish env w port userRecs postRecs todoRecs).bodyLines ↔
      log_cond_at_send env w = true) := by
  by_cases hc : log_cond_at_send env w = true
  · simp only [finish]
    rw [hc]
    simp
  · rw [Bool.not_eq_true] at hc
    simp only [finish]
    rw [hc]
    simp only [Bool.false_eq_true, if_false, iff_false]
    intro hmem
    simp only [List.mem_append, List.mem_cons, List.not_mem_nil, or_false] at hmem
    rcases hmem with (h | h | h | h | h | h | h) | (h | h | h | h)
    · exact absurd h.symm (by decide)
    · exact absurd h.symm (by decide)
    · exact absurd h.symm (by decide)
    · exact absurd h.symm (by decide)
    · exact append_ne_warningLine "Users records: " _ 'U' (by decide) (by decide) h.symm
    · exact append_ne_warningLine "Posts records: " _ 'P' (by decide) (by decide) h.symm
    · exact append_ne_warningLine "Todos records: " _ 'T' (by decide) (by decide) h.symm
    · exact absurd h.symm (by decide)
    · exact append_ne_warningLine ("Generated at: " ++ w.now) " UTC" 'G'
        (by rw [String.data_append]; rw [List.head?_append_of_ne_nil] <;> decide)
        (by decide) h.symm
    · exact absurd h.symm (by decide)
    · exact absurd h.symm (by decide)

/-- The error log is in the attachment list of a finished run exactly when
the log condition held. -/
theorem finish_attach_mem_iff (env : Env) (w : World) (port : Int)
    (userRecs postRecs todoRecs : List Record) :
    (LOG_FILE ∈ (finish env w port userRecs postRecs todoRecs).attachments ↔
      log_cond_at_send env w = true) := by
  by_cases hc : log_cond_at_send env w = true
  · simp only [finish]
    rw [hc]
    simp
  · rw [Bool.not_eq_true] at hc
    simp only [finish]
    rw [hc]
    simp only [Bool.false_eq_true, if_false, iff_false]
    intro hmem
    rw [List.mem_singleton] at hmem
    rw [show (create_report_excel userRecs postRecs todoRecs).2 =
      "daily_report.xlsx" from rfl] at hmem
    exact absurd hmem (by decide)

/-- C5: in every completed run, the warning line is in the email body, and
the error log is in the attachment list, each exactly when the error-log
file exists and has size greater than zero at send time. -/
theorem warning_and_attachment_iff_log (env : Env) (w : World) (r : RunResult)
    (h : main_run env w = .ok r) :
    (warningLine ∈ r.bodyLines ↔
      (w.fileExists LOG_FILE = true ∧
        0 < log_size w.initialLogSize (fetch_phase env w).2)) ∧
    (LOG_FILE ∈ r.attachments ↔
      (w.fileExists LOG_FILE = true ∧
        0 < log_size w.initialLogSize (fetch_phase env w).2)) := by
  obtain ⟨port, us, ps, ts, hp, hu, hpp, ht, hr⟩ := main_run_ok_inv env w r h
  subst hr
  have hcond : (log_cond_at_send env w = true) ↔
      (w.fileExists LOG_FILE = true ∧
        0 < log_size w.initialLogSize (fetch_phase env w).2) := by
    simp [log_cond_at_send]
  rw [finish_warning_mem_iff, finish_attach_mem_iff, hcond]
  exact ⟨Iff.rfl, Iff.rfl⟩

/-- C5 witness: in the demo run every fetch failed, so the log is non-empty
at send time and both the warning line and the attachment appear. -/
theorem warning_and_attachment_iff_log_witness :
    warningLine ∈ (demo_result "2026-01-01T00:00:00").bodyLines ∧
    LOG_FILE ∈ (demo_result "2026-01-01T00:00:00").attachments := by
  have h := warning_and_attachment_iff_log demo_env
    (demo_world "2026-01-01T00:00:00") (demo_result "2026-01-01T00:00:00") rfl
  have hc : (demo_world "2026-01-01T00:00:00").fileExists LOG_FILE = true ∧
      0 < log_size (demo_world "2026-01-01T00:00:00").initialLogSize
        (fetch_phase demo_env (demo_world "2026-01-01T00:00:00")).2 :=
    ⟨rfl, by decide⟩
  exact ⟨h.1.mpr hc, h.2.mpr hc⟩

/-- C6: an attachment path that does not exist is silently omitted — the
send result (message and error log alike) is the same as if the path had
not been listed, and when the SMTP session succeeds the message is still
sent with the remaining attachments and nothing is logged. -/
theorem missing_attachment_skipped (fe : String → Bool) (smtp : SmtpOutcome)
    (host : Option String) (port : Int) (user pass dest : Option String)
    (subject body : String) (l1 l2 : List String) (p : String)
    (log : List ErrorEntry) (hp : fe p = false) :
    send_email_with_attachments fe smtp host port user pass dest subject body
        (l1 ++ p :: l2) log =
      send_email_with_attachments fe smtp host port user pass dest subject body
        (l1 ++ l2) log ∧
    (smtp = .ok →
      (send_email_with_attachments fe smtp host port user pass dest subject
          body (l1 ++ p :: l2) log).1.isSome = true ∧
      (send_email_with_attachments fe smtp host port user pass dest subject
          body (l1 ++ p :: l2) log).2 = log) := by
  constructor
  · simp [send_email_with_attachments, List.filter_append, List.filter_cons, hp]
  · rintro rfl
    simp [send_email_with_attachments]

/-- C6 witness: with only the report file on disk, listing a missing path
makes no difference, and the message still goes out. -/
theorem missing_attachment_skipped_witness :
    send_email_with_attachments (fun s => s == "daily_report.xlsx") .ok none
        587 none none none "Daily Multi-API Report" "body"
        ["daily_report.xlsx", "missing.txt"] [] =
      send_email_with_attachments (fun s => s == "daily_report.xlsx") .ok none
        587 none none none "Daily Multi-API Report" "body"
        ["daily_report.xlsx"] [] ∧
    (send_email_with_attachments (fun s => s == "daily_report.xlsx") .ok none
        587 none none none "Daily Multi-API Report" "body"
        ["daily_report.xlsx", "missing.txt"] []).1.isSome = true := by
  have h := missing_attachment_skipped (fun s => s == "daily_report.xlsx")
    .ok none 587 none none none "Daily Multi-API Report" "body"
    ["daily_report.xlsx"] [] "missing.txt" [] (by decide)
  exact ⟨h.1, (h.2 rfl).1⟩

/-- A list of JSON values that are all objects iterates cleanly as
records. -/
theorem mapM_ok_of_all_obj (elems : List Json)
    (h : (elems.all fun | .obj _ => true | _ => false) = true) :
    ∃ rs, (elems.mapM fun
        | Json.obj fields => Except.ok (ε := String) fields
        | _ => Except.error "AttributeError: object has no attribute get")
      = .ok rs := by
  induction elems with
  | nil => exact ⟨[], rfl⟩
  | cons x xs ih =>
      rw [List.all_cons, Bool.and_eq_true] at h
      obtain ⟨rs, hrs⟩ := ih h.2
      cases x with
      | obj fields =>
          refine ⟨fields :: rs, ?_⟩
          rw [List.mapM_cons, hrs]
          rfl
      | null => simp at h
      | bool b => simp at h
      | num n => simp at h
      | str s => simp at h
      | arr l => simp at h

/-- A safe fetch outcome yields a result that iterates cleanly as
records. -/
theorem iter_records_of_safe (url : String) (o : FetchOutcome)
    (log : List ErrorEntry) (h : safe_outcome o = true) :
    ∃ rs, iter_records (fetch_api_data url o log).1 = .ok rs := by
  cases o with
  | failure e => exact ⟨[], rfl⟩
  | success d =>
      cases d with
      | obj fields => exact ⟨[fields], rfl⟩
      | arr elems => exact mapM_ok_of_all_obj elems (by simpa [safe_outcome] using h)
      | null => simp [safe_outcome] at h
      | bool b => simp [safe_outcome] at h
      | num n => simp [safe_outcome] at h
      | str s => simp [safe_outcome] at h

/-- The error log of a finished run whose SMTP session failed: the fetch
phase's entries followed by exactly one entry with context
`Email sending failed`. -/
theorem finish_log_email_failure (env : Env) (w : World) (port : Int)
    (us ps ts : List Record) (e : String)
    (he : w.smtpOutcome = .failure e) :
    (finish env w port us ps ts).log =
      (fetch_phase env w).2 ++
        [{ context := "Email sending failed", message := e }] := by
  simp [finish, send_email_with_attachments, he, log_error]

/-- C7 counterexample: with `SMTP_PORT` set to the non-numeric string
`nope`, the run aborts with an uncaught `ValueError` before anything else
happens — so it is not the case that no error anywhere aborts the run. -/
theorem run_aborted_by_bad_port :
    main_run demo_env_badport (demo_world "2026-01-01T00:00:00") =
      .error (py_int_error "nope") ∧
    (main_run demo_env_badport (demo_world "2026-01-01T00:00:00")).isOk
      = false := ⟨rfl, rfl⟩

/-- C7 amended: failures inside the two exception handlers never abort the
run — whenever the port parses and every fetch outcome is a failure or
well-shaped JSON, the run completes (exit 0) for every SMTP outcome, and an
SMTP failure is recorded with context `Email sending failed` while
`send_email_with_attachments` returns without raising. -/
theorem handled_failures_do_not_abort (env : Env) (w : World) (port : Int)
    (hport : py_int (env.smtpPort.getD "587") = some port)
    (hsafe : ∀ url, safe_outcome (w.fetchOutcome url) = true) :
    (main_run env w).isOk = true ∧
    (∀ e, w.smtpOutcome = .failure e →
      ∀ r, main_run env w = .ok r →
        ({ context := "Email sending failed", message := e } : ErrorEntry)
          ∈ r.log) := by
  obtain ⟨us, hu⟩ := iter_records_of_safe (api1_url env)
    (w.fetchOutcome (api1_url env)) [] (hsafe _)
  obtain ⟨ps, hp⟩ := iter_records_of_safe (api2_url env)
    (w.fetchOutcome (api2_url env))
    (fetch_api_data (api1_url env) (w.fetchOutcome (api1_url env)) []).2
    (hsafe _)
  obtain ⟨ts, ht⟩ := iter_records_of_safe (api3_url env)
    (w.fetchOutcome (api3_url env))
    (fetch_api_data (api2_url env) (w.fetchOutcome (api2_url env))
      (fetch_api_data (api1_url env) (w.fetchOutcome (api1_url env)) []).2).2
    (hsafe _)
  have hrun : main_run env w = .ok (finish env w port us ps ts) := by
    unfold main_run
    rw [hport]
    unfold run_after_port
    rw [show iter_records (fetch_phase env w).1.1 = .ok us from hu,
        show iter_records (fetch_phase env w).1.2.1 = .ok ps from hp,
        show iter_records (fetch_phase env w).1.2.2 = .ok ts from ht]
  refine ⟨by rw [hrun]; rfl, ?_⟩
  intro e he r hr
  rw [hrun] at hr
  injection hr with hr
  rw [← hr, finish_log_email_failure env w port us ps ts e he]
  simp

/-- C7 witness: in the demo world with a failing SMTP session, the run still
completes and the failure is in the log. -/
theorem handled_failures_do_not_abort_witness :
    (main_run demo_env demo_world_smtpfail).isOk = true ∧
    ({ context := "Email sending failed",
       message := "SMTPAuthenticationError" } : ErrorEntry)
      ∈ demo_result_smtpfail.log := by
  have h := handled_failures_do_not_abort demo_env demo_world_smtpfail 587
    rfl (fun url => rfl)
  exact ⟨h.1, h.2 "SMTPAuthenticationError" rfl demo_result_smtpfail rfl⟩

/-- C8 counterexample: with `API_KEY` set to the empty string the run
completes, yet every request goes out with no headers at all — no
`Authorization: Bearer <value>` header, contradicting the claim for every
set value of `API_KEY`. -/
theorem empty_api_key_sends_no_auth_header :
    demo_env_emptykey.apiKey = some "" ∧
    main_run demo_env_emptykey (demo_world "2026-01-01T00:00:00") =
      .ok demo_result_emptykey ∧
    demo_result_emptykey.requests.map Prod.snd = [[], [], []] :=
  ⟨rfl, rfl, rfl⟩

/-- C8 amended: in every completed run, the three requests carry no
`Authorization` header when `API_KEY` is unset or set to the empty string
(Python truthiness treats both alike), and each carries exactly
`Authorization: Bearer <value>` when `API_KEY` is set to a non-empty
value. -/
theorem auth_header_matches_api_key (env : Env) (w : World) (r : RunResult)
    (h : main_run env w = .ok r) :
    r.requests.map Prod.fst = [api1_url env, api2_url env, api3_url env] ∧
    ((env.apiKey = none ∨ env.apiKey = some "") →
      ∀ q ∈ r.requests, q.2 = []) ∧
    (∀ k, env.apiKey = some k → k ≠ "" →
      ∀ q ∈ r.requests, q.2 = [("Authorization", "Bearer " ++ k)]) := by
  obtain ⟨port, us, ps, ts, hp, hu, hpp, ht, hr⟩ := main_run_ok_inv env w r h
  subst hr
  refine ⟨rfl, ?_, ?_⟩
  · intro hk q hq
    have hh : make_headers env.apiKey = [] := by
      rcases hk with hk | hk <;> simp [make_headers, hk]
    simp only [finish, List.mem_cons, List.not_mem_nil, or_false] at hq
    rcases hq with rfl | rfl | rfl <;> exact hh
  · intro k hk hne q hq
    have hh : make_headers env.apiKey = [("Authorization", "Bearer " ++ k)] := by
      simp [make_headers, hk, hne]
    simp only [finish, List.mem_cons, List.not_mem_nil, or_false] at hq
    rcases hq with rfl | rfl | rfl <;> exact hh

/-- C8 witness: with `API_KEY` unset, the demo run's requests carry no
headers. -/
theorem auth_header_matches_api_key_witness :
    (demo_result "2026-01-01T00:00:00").requests.map Prod.snd =
      [[], [], []] := by
  have h := auth_header_matches_api_key demo_env
    (demo_world "2026-01-01T00:00:00") (demo_result "2026-01-01T00:00:00") rfl
  have h2 := h.2.1 (Or.inl rfl)
  have ha : make_headers demo_env.apiKey = [] :=
    h2 (api1_url demo_env, make_headers demo_env.apiKey)
      (by simp [demo_result, finish])
  have hreq : (demo_result "2026-01-01T00:00:00").requests =
      [(api1_url demo_env, []), (api2_url demo_env, []),
       (api3_url demo_env, [])] := by
    simp [demo_result, finish, ha]
  rw [hreq]
  rfl

/-- The workbook built by `finish` depends only on the record lists. -/
theorem finish_workbook (env : Env) (w : World) (port : Int)
    (us ps ts : List Record) :
    (finish env w port us ps ts).workbook = (create_report_excel us ps ts).1 :=
  rfl

/-- C9: the workbook content is a deterministic function of the fetched
collections — two completed runs under the same environment whose fetch
outcomes agree (the clock, the pre-existing log size, the file system and
the SMTP outcome may all differ) produce identical workbook content and
report path. -/
theorem workbook_deterministic (env : Env) (w1 w2 : World)
    (r1 r2 : RunResult) (hf : w1.fetchOutcome = w2.fetchOutcome)
    (h1 : main_run env w1 = .ok r1) (h2 : main_run env w2 = .ok r2) :
    r1.workbook = r2.workbook ∧ r1.reportPath = r2.reportPath := by
  obtain ⟨p1, us1, ps1, ts1, hp1, hu1, hpp1, ht1, hr1⟩ :=
    main_run_ok_inv env w1 r1 h1
  obtain ⟨p2, us2, ps2, ts2, hp2, hu2, hpp2, ht2, hr2⟩ :=
    main_run_ok_inv env w2 r2 h2
  have hfp : fetch_phase env w1 = fetch_phase env w2 := by
    unfold fetch_phase
    rw [hf]
  rw [hfp] at hu1 hpp1 ht1
  have hus : us1 = us2 := by
    have := hu1.symm.trans hu2
    injection this
  have hps : ps1 = ps2 := by
    have := hpp1.symm.trans hpp2
    injection this
  have hts : ts1 = ts2 := by
    have := ht1.symm.trans ht2
    injection this
  subst hr1 hr2 hus hps hts
  exact ⟨by rw [finish_workbook, finish_workbook], rfl⟩

/-- C9 witness: two demo runs that differ only in the clock produce the
same workbook. -/
theorem workbook_deterministic_witness :
    (demo_result "2026-01-01T00:00:00").workbook =
      (demo_result "2026-01-02T12:34:56").workbook :=
  (workbook_deterministic demo_env (demo_world "2026-01-01T00:00:00")
    (demo_world "2026-01-02T12:34:56") (demo_result "2026-01-01T00:00:00")
    (demo_result "2026-01-02T12:34:56") rfl rfl rfl).1

/-- C10: when `SMTP_PORT` is set to a string that is not a valid integer
literal, the run aborts with an uncaught `ValueError` during configuration
parsing, and its outcome is the same whatever the outside world does — no
API fetch, report creation, or email send has any effect on it. -/
theorem bad_smtp_port_raises_at_startup (env : Env) (w w' : World)
    (s : String) (hs : env.smtpPort = some s) (hbad : py_int s = none) :
    main_run env w = .error (py_int_error s) ∧
    main_run env w = main_run env w' := by
  unfold main_run
  simp [hs, hbad]

/-- C10 witness: `SMTP_PORT=nope` aborts the run identically in two
different worlds. -/
theorem bad_smtp_port_raises_at_startup_witness :
    main_run demo_env_badport (demo_world "2026-01-01T00:00:00") =
      .error (py_int_error "nope") ∧
    main_run demo_env_badport (demo_world "2026-01-01T00:00:00") =
      main_run demo_env_badport demo_world_smtpfail :=
  bad_smtp_port_raises_at_startup demo_env_badport
    (demo_world "2026-01-01T00:00:00") demo_world_smtpfail "nope" rfl
    (by decide)

end ReportGenerator
